import Mathlib

/-!
Shallow embedding of the drogue-influxdb-function extraction engine
(src/config.rs and src/handler.rs).

Modelling conventions:
* `serde_json::Value` becomes the inductive `Value`; `serde_json::Number`
  becomes `JNumber` with the same three internal variants as serde_json
  (`PosInt`/`NegInt`/`Float`) and the same `as_i64`/`as_u64`/`as_f64`
  accessor behaviour.  IEEE-754 `f64` payloads are abstracted as exact
  rationals: the engine never inspects a float's numeric value (it only
  moves it through), so the rounding performed by Rust's `as f64` casts
  never affects control flow or which variant is produced.
* `influxdb::Type` becomes `InfluxType`; `influxdb::WriteQuery` becomes
  `WriteQuery`, with `add_field`/`add_tag` appending to its field/tag lists
  exactly as the influxdb client appends to its vectors.
* `jsonpath_lib::Compiled` is an external collaborator; it is modelled as
  an abstract selector function `Value → Except String (List Value)`,
  matching the signature of `Compiled::select`.
* `ServiceError` lives in the crate's `error.rs`, which is not part of the
  excerpt; the two request-time variants are fully determined by their
  construction sites in handler.rs and config.rs.
* Rust's fallible calls (`Result`) become `Except`; the `?` operator
  becomes monadic bind / early return, spelled out as explicit matches so
  every control path of the source is visible.
-/

namespace DrogueInflux

/-- serde_json's internal number representation: an unsigned 64-bit
integer, a (strictly negative) signed 64-bit integer, or a double.  The
float payload is abstracted as an exact rational (see file header). -/
inductive JNumber where
  | posInt (n : Nat)
  | negInt (i : Int)
  | float (q : ℚ)
deriving DecidableEq, Repr

/-- serde_json `Number::as_i64`: a `PosInt` fits when it is at most
`i64::MAX`; a `NegInt` always fits; a `Float` is never an i64. -/
def JNumber.as_i64 : JNumber → Option Int
  | .posInt n => if n ≤ 9223372036854775807 then some (n : Int) else none
  | .negInt i => some i
  | .float _ => none

/-- serde_json `Number::as_u64`: only a `PosInt` is a u64 (a `NegInt` is
always negative, a `Float` never converts). -/
def JNumber.as_u64 : JNumber → Option Nat
  | .posInt n => some n
  | .negInt _ => none
  | .float _ => none

/-- serde_json `Number::as_f64`: every variant converts (for integers via
the `as f64` cast, abstracted here as the exact value). -/
def JNumber.as_f64 : JNumber → Option ℚ
  | .posInt n => some (n : ℚ)
  | .negInt i => some (i : ℚ)
  | .float q => some q

/-- Debug rendering of a number, standing in for Rust's `{:?}` format. -/
def JNumber.debug : JNumber → String
  | .posInt n => "PosInt(" ++ toString n ++ ")"
  | .negInt i => "NegInt(" ++ toString i ++ ")"
  | .float q => "Float(" ++ toString q ++ ")"

/-- serde_json `Value`. -/
inductive Value where
  | null
  | bool (b : Bool)
  | number (n : JNumber)
  | str (s : String)
  | array (xs : List Value)
  | object (kvs : List (String × Value))

/-- serde_json `Value::as_bool`. -/
def Value.as_bool : Value → Option Bool
  | .bool b => some b
  | _ => none

/-- serde_json `Value::as_str` (the owned-string view used via
`map(ToString::to_string)` in config.rs). -/
def Value.as_str : Value → Option String
  | .str s => some s
  | _ => none

/-- serde_json `Value::as_i64`. -/
def Value.as_i64 : Value → Option Int
  | .number n => n.as_i64
  | _ => none

/-- serde_json `Value::as_u64`. -/
def Value.as_u64 : Value → Option Nat
  | .number n => n.as_u64
  | _ => none

/-- serde_json `Value::as_f64`. -/
def Value.as_f64 : Value → Option ℚ
  | .number n => n.as_f64
  | _ => none

/-- Debug rendering of a JSON value, standing in for Rust's `{:?}`
format (punctuation differs from serde's derive, which is irrelevant to
the engine: the string is only embedded in error messages). -/
def Value.debug : Value → String
  | Value.null => "Null"
  | Value.bool b => "Bool(" ++ toString b ++ ")"
  | Value.number n => n.debug
  | Value.str s => "String(" ++ s ++ ")"
  | Value.array xs =>
      "Array(" ++ String.intercalate ", " (xs.attach.map (fun v => Value.debug v.1)) ++ ")"
  | Value.object kvs =>
      "Object(" ++ String.intercalate ", "
        (kvs.attach.map (fun kv => kv.1.1 ++ ": " ++ Value.debug kv.1.2)) ++ ")"
decreasing_by
  · have h := List.sizeOf_lt_of_mem v.2
    simp only [Value.array.sizeOf_spec]
    omega
  · obtain ⟨⟨k, v⟩, hm⟩ := kv
    have h := List.sizeOf_lt_of_mem hm
    simp only [Prod.mk.sizeOf_spec] at h
    simp only [Value.object.sizeOf_spec]
    omega

/-- influxdb `Type`: the typed values written into a record. -/
inductive InfluxType where
  | Boolean (b : Bool)
  | Float (q : ℚ)
  | SignedInteger (i : Int)
  | UnsignedInteger (u : Nat)
  | Text (s : String)
deriving DecidableEq, Repr

/-- The crate's `ServiceError` (module error.rs, outside the excerpt).
Modelled from the spec: the two request-time error kinds, `SelectorError`
(evaluation failure or ambiguous multi-match) and `PayloadParseError`
(coercion mismatch or unparsable payload), each carrying a details
message — exactly the two variants constructed in handler.rs and
config.rs. -/
inductive ServiceError where
  | SelectorError (details : String)
  | PayloadParseError (details : String)
deriving DecidableEq, Repr

/-- jsonpath_lib `Compiled`: a pre-parsed query path.  External
collaborator, modelled by its observable behaviour: `select` returns the
list of matching values or an error message. -/
structure Compiled where
  select : Value → Except String (List Value)

/-- config.rs `ExpectedType`: the type hint attached to a mapping. -/
inductive ExpectedType where
  | Boolean
  | Float
  | SignedInteger
  | UnsignedInteger
  | Text
  | None
deriving DecidableEq, Repr

/-- config.rs `Path`: a compiled query path with its original text and
expected type (the source field is spelled `r#type`). -/
structure Path where
  path : String
  compiled : Compiled
  type : ExpectedType

/-- config.rs `ExpectedType::accept`: unwrap an optional conversion
result, failing with an empty-detail `PayloadParseError` (the source's
`format!("")`) when the value did not convert. -/
def ExpectedType.accept (_ : ExpectedType) (value : Option InfluxType) :
    Except ServiceError InfluxType :=
  match value with
  | some v => .ok v
  | none => .error (.PayloadParseError "")

/-- config.rs `ExpectedType::convert`: coerce one matched JSON value to a
typed value, strictly by the explicit hint, or by the value's own shape
when the hint is `None`. -/
def ExpectedType.convert (e : ExpectedType) (value : Value) (path : Path) :
    Except ServiceError InfluxType :=
  match e with
  | ExpectedType.Boolean => e.accept (value.as_bool.map InfluxType.Boolean)
  | ExpectedType.Text => e.accept (value.as_str.map InfluxType.Text)
  | ExpectedType.UnsignedInteger => e.accept (value.as_u64.map InfluxType.UnsignedInteger)
  | ExpectedType.SignedInteger => e.accept (value.as_i64.map InfluxType.SignedInteger)
  | ExpectedType.Float => e.accept (value.as_f64.map InfluxType.Float)
  | ExpectedType.None =>
    match value with
    | Value.str s => .ok (InfluxType.Text s)
    | Value.bool b => .ok (InfluxType.Boolean b)
    | Value.number n =>
      match ((n.as_f64.map InfluxType.Float).orElse
              (fun _ => n.as_i64.map InfluxType.SignedInteger)).orElse
              (fun _ => n.as_u64.map InfluxType.UnsignedInteger) with
      | some t => .ok t
      | none => .error (.PayloadParseError
          ("Unknown numeric type - path: " ++ path.path ++ ", value: " ++ n.debug))
    | _ => .error (.PayloadParseError
        ("Invalid value type selected - path: " ++ path.path ++ ", value: " ++ value.debug))

/-- Rust `char::to_lowercase` for the ASCII range (the only characters
occurring in hint keywords and config key names). -/
def lowerChar (c : Char) : Char :=
  if 65 <= c.toNat && c.toNat <= 90 then Char.ofNat (c.toNat + 32) else c

/-- Rust `str::to_lowercase`, modelled character-wise over the string's
character list. -/
def toLowerStr (s : String) : String := String.mk (s.data.map lowerChar)

/-- config.rs `TryFrom<String> for ExpectedType`: resolve a type-hint
keyword, case-insensitively; an unknown keyword is a startup error (the
anyhow error is modelled as its message string). -/
def ExpectedType.try_from (value : String) : Except String ExpectedType :=
  match toLowerStr value with
  | "bool" | "boolean" => .ok ExpectedType.Boolean
  | "float" | "number" => .ok ExpectedType.Float
  | "int" | "integer" => .ok ExpectedType.SignedInteger
  | "uint" | "unsigned" => .ok ExpectedType.UnsignedInteger
  | "string" | "text" => .ok ExpectedType.Text
  | "" | "none" => .ok ExpectedType.None
  | _ => .error ("Unknown type: " ++ value)

/-- config.rs `TryFrom<Result<String, VarError>> for ExpectedType`: an
absent env entry (`VarError::NotPresent`) resolves to `None`; a present
entry goes through the keyword resolution. -/
def ExpectedType.of_var (value : Option String) : Except String ExpectedType :=
  match value with
  | none => .ok ExpectedType.None
  | some s => ExpectedType.try_from s

/-- influxdb `WriteQuery`: a timestamped record for one measurement with
field and tag lists (the client's vectors, appended in insertion order).
Timestamps are abstracted as integers. -/
structure WriteQuery where
  timestamp : Int
  measurement : String
  fields : List (String × InfluxType)
  tags : List (String × InfluxType)
deriving DecidableEq

/-- influxdb `Timestamp::into_query`: the record shell with the given
timestamp and measurement (table) name and no fields or tags yet. -/
def into_query (timestamp : Int) (measurement : String) : WriteQuery :=
  { timestamp := timestamp, measurement := measurement, fields := [], tags := [] }

/-- influxdb `WriteQuery::add_field`: append one named field value. -/
def WriteQuery.add_field (q : WriteQuery) (field : String) (value : InfluxType) : WriteQuery :=
  { q with fields := q.fields ++ [(field, value)] }

/-- influxdb `WriteQuery::add_tag`: append one named tag value. -/
def WriteQuery.add_tag (q : WriteQuery) (field : String) (value : InfluxType) : WriteQuery :=
  { q with tags := q.tags ++ [(field, value)] }

/-- config.rs `Processor` (less the store client, which the top-level
handler receives as an abstract capability): the table name and the two
mapping sets.  The source's `HashMap<String, Path>` is modelled as an
association list; its iteration order is the list order, which the
hash map leaves unspecified. -/
structure Processor where
  table : String
  fields : List (String × Path)
  tags : List (String × Path)

/-- handler.rs `add_to_query`, recursion-ified: the source's `for` loop
over the mapping set with the mutable counter `num` threaded through.
Each entry is selected against the document; zero matches are skipped,
one match is converted and handed to `f` (counting it), several matches
abort with a `SelectorError` naming the count, and a selector failure
aborts with its message. -/
def add_to_query_from (query : WriteQuery) (num : Nat)
    (entries : List (String × Path)) (json : Value)
    (f : WriteQuery → String → InfluxType → WriteQuery) :
    Except ServiceError (WriteQuery × Nat) :=
  match entries with
  | [] => .ok (query, num)
  | (field, path) :: rest =>
    match path.compiled.select json with
    | .error err => .error (.SelectorError err)
    | .ok sel =>
      match sel with
      | [] => add_to_query_from query num rest json f
      | [v] =>
        match path.type.convert v path with
        | .error e => .error e
        | .ok t => add_to_query_from (f query field t) (num + 1) rest json f
      | _ => .error (.SelectorError
          ("Selector found more than one value: " ++ toString sel.length))

/-- handler.rs `add_to_query`: run every mapping of the set against the
document, starting the contribution counter at zero. -/
def add_to_query (query : WriteQuery) (entries : List (String × Path)) (json : Value)
    (f : WriteQuery → String → InfluxType → WriteQuery) :
    Except ServiceError (WriteQuery × Nat) :=
  add_to_query_from query 0 entries json f

/-- handler.rs `add_values`: field accumulation into the record payload. -/
def add_values (query : WriteQuery) (processor : Processor) (json : Value) :
    Except ServiceError (WriteQuery × Nat) :=
  add_to_query query processor.fields json (fun query field value => query.add_field field value)

/-- handler.rs `add_tags`: tag accumulation into the record metadata. -/
def add_tags (query : WriteQuery) (processor : Processor) (json : Value) :
    Except ServiceError (WriteQuery × Nat) :=
  add_to_query query processor.tags json (fun query field value => query.add_tag field value)

/-- cloudevents `Data`: an event payload, either structured JSON, a
string, or a binary blob (bytes as naturals). -/
inductive Data where
  | Json (v : Value)
  | Str (s : String)
  | Binary (b : List Nat)

/-- The parts of a cloudevents `Event` the handler reads: the optional
payload, the optional timestamp, and the JSON serialization of the full
envelope (`serde_json::to_value(event)`, an external total serializer,
modelled as a field of the event). -/
structure Event where
  data : Option Data
  time : Option Int
  json : Value

/-- handler.rs `parse_payload`: decode the event payload into a JSON
document.  `from_str` and `from_slice` stand for serde_json's parsers
(external collaborators), already yielding their error display text.
An absent payload is the wildcard arm of the source match. -/
def parse_payload (from_str : String → Except String Value)
    (from_slice : List Nat → Except String Value)
    (data : Option Data) : Except ServiceError Value :=
  match data with
  | some (Data.Json value) => .ok value
  | some (Data.Str s) =>
    match from_str s with
    | .ok v => .ok v
    | .error err => .error (.PayloadParseError err)
  | some (Data.Binary b) =>
    match from_slice b with
    | .ok v => .ok v
    | .error err => .error (.PayloadParseError err)
  | _ => .error (.PayloadParseError "Unknown event payload")

/-- The three HTTP outcomes of handler.rs `handle` on its happy paths:
202 Accepted after a successful store write, 500 with the store's error
text, or 204 No Content when there is nothing to write. -/
inductive HandleOutcome where
  | Accepted
  | InternalServerError (msg : String)
  | NoContent
deriving DecidableEq, Repr

/-- handler.rs `handle`: the top-level orchestration.  `now` stands for
`Utc::now()`, `run_query` for the store client's write call (external
capability, success or error text).  The record shell is built from the
event time (defaulting to now) and the configured table; fields come
from the parsed payload, tags from the envelope JSON; the record is
written only when at least one field value was contributed, otherwise
the handler answers No Content. -/
def handle (now : Int) (run_query : WriteQuery → Except String Unit)
    (from_str : String → Except String Value)
    (from_slice : List Nat → Except String Value)
    (processor : Processor) (event : Event) :
    Except ServiceError HandleOutcome :=
  match parse_payload from_str from_slice event.data with
  | .error e => .error e
  | .ok json =>
    match add_values (into_query (event.time.getD now) processor.table) processor json with
    | .error e => .error e
    | .ok (query, num) =>
      match add_tags query processor event.json with
      | .error e => .error e
      | .ok (query, _) =>
        if num > 0 then
          match run_query query with
          | .ok _ => .ok HandleOutcome.Accepted
          | .error e => .ok (HandleOutcome.InternalServerError e)
        else
          .ok HandleOutcome.NoContent

/-- Rust `str::is_char_boundary`-free prefix test, over character
lists. -/
def isPre (p s : String) : Bool := p.data.isPrefixOf s.data

/-- Drop the first `n` characters of `s`. -/
def dropStr (s : String) (n : Nat) : String := String.mk (s.data.drop n)

/-- Rust `str::strip_prefix`: the remainder of `s` after `pre` when
`pre` leads `s`. -/
def strip_pre (pre s : String) : Option String :=
  if isPre pre s then some (dropStr s pre.data.length) else none

/-- `HashMap::insert` on the association-list model: replace the value
at an existing key, else append a new entry. -/
def mapInsert (m : List (String × Path)) (k : String) (v : Path) : List (String × Path) :=
  match m with
  | [] => [(k, v)]
  | (k0, v0) :: rest =>
    if k0 = k then (k, v) :: rest else (k0, v0) :: mapInsert rest k v

/-- Rust `std::env::var` on the modelled environment: the value of the
first binding of `key`. -/
def env_var (env : List (String × String)) (key : String) : Option String :=
  (env.find? (fun kv => kv.1 == key)).map (fun kv => kv.2)

/-- config.rs `init`, mapping-construction loop, recursion-ified: walk
the environment bindings; a `FIELD_`-prefixed key compiles its value to
a path (`compile` stands for `jsonpath_lib::Compiled::compile`, already
wrapped in the source's "Failed to parse JSON path" message by the
caller's map_err — modelled by composing the message here), resolves the
companion `TYPE_FIELD_` hint from the full environment, and inserts the
mapping at the lower-cased suffix; a `TAG_`-prefixed key does the same
without a hint, always at `ExpectedType.None`.  Any failure aborts
initialization. -/
def init_go (compile : String → Except String Compiled)
    (env_all : List (String × String)) (rest : List (String × String))
    (fields tags : List (String × Path)) :
    Except String (List (String × Path) × List (String × Path)) :=
  match rest with
  | [] => .ok (fields, tags)
  | (key, value) :: more =>
    match strip_pre "FIELD_" key with
    | some field =>
      match compile value with
      | .error err => .error ("Failed to parse JSON path: " ++ err)
      | .ok compiled =>
        match ExpectedType.of_var (env_var env_all ("TYPE_FIELD_" ++ field)) with
        | .error err => .error err
        | .ok expected_type =>
          init_go compile env_all more
            (mapInsert fields (toLowerStr field)
              { path := value, compiled := compiled, type := expected_type })
            tags
    | none =>
      match strip_pre "TAG_" key with
      | some tag =>
        match compile value with
        | .error err => .error ("Failed to parse JSON path: " ++ err)
        | .ok compiled =>
          init_go compile env_all more fields
            (mapInsert tags (toLowerStr tag)
              { path := value, compiled := compiled, type := ExpectedType.None })
      | none => init_go compile env_all more fields tags

/-- config.rs `init`: build the field and tag mapping sets from the
environment (the store client and size limits are outside the engine). -/
def init_paths (compile : String → Except String Compiled)
    (env : List (String × String)) :
    Except String (List (String × Path) × List (String × Path)) :=
  init_go compile env env [] []

/-! ## Observables of one mapping against one document -/

/-- A mapping entry lets the record build proceed: its selector succeeds
and yields zero matches, or exactly one match that coerces. -/
def entry_okB (json : Value) (e : String × Path) : Bool :=
  match e.2.compiled.select json with
  | .error _ => false
  | .ok [] => true
  | .ok [v] => (e.2.type.convert v e.2).toOption.isSome
  | .ok _ => false

/-- A mapping entry actually contributes a value: exactly one match that
coerces successfully. -/
def contributes (json : Value) (e : String × Path) : Bool :=
  match e.2.compiled.select json with
  | .ok [v] => (e.2.type.convert v e.2).toOption.isSome
  | _ => false

/-- The named value a mapping entry contributes, when it does. -/
def contribution (json : Value) (e : String × Path) : Option (String × InfluxType) :=
  match e.2.compiled.select json with
  | .ok [v] =>
    match e.2.type.convert v e.2 with
    | .ok t => some (e.1, t)
    | .error _ => none
  | _ => none

lemma contribution_isSome (json : Value) (e : String × Path) :
    (contribution json e).isSome = contributes json e := by
  unfold contribution contributes
  rcases hsel : e.2.compiled.select json with err | sel
  · rfl
  · match sel with
    | [] => rfl
    | [v] =>
      rcases hc : e.2.type.convert v e.2 with er | t <;> simp [hc, Except.toOption]
    | a :: b :: r => rfl

lemma countP_contributes (json : Value) (l : List (String × Path)) :
    l.countP (contributes json) = (l.filterMap (contribution json)).length := by
  induction l with
  | nil => rfl
  | cons e rest ih =>
    rw [List.countP_cons, List.filterMap_cons]
    rcases hc : contribution json e with _ | kv
    · have h := contribution_isSome json e
      rw [hc] at h
      simp only [Option.isSome] at h
      rw [ih, ← h]
      simp
    · have h := contribution_isSome json e
      rw [hc] at h
      simp only [Option.isSome] at h
      rw [ih, ← h]
      simp

/-- On success, `add_to_query_from` folds exactly the contributions of
the mapping set (in iteration order) over the record, and the counter
advances by the number of contributions. -/
lemma aq_ok_foldl (json : Value) (f : WriteQuery → String → InfluxType → WriteQuery)
    (l : List (String × Path)) :
    ∀ (q : WriteQuery) (num : Nat) (qr : WriteQuery) (n : Nat),
      add_to_query_from q num l json f = .ok (qr, n) →
      qr = (l.filterMap (contribution json)).foldl (fun acc kt => f acc kt.1 kt.2) q ∧
      n = num + (l.filterMap (contribution json)).length := by
  induction l with
  | nil =>
    intro q num qr n h
    simp only [add_to_query_from, Except.ok.injEq, Prod.mk.injEq] at h
    simp [h.1, h.2]
  | cons e rest ih =>
    obtain ⟨field, path⟩ := e
    intro q num qr n h
    simp only [add_to_query_from] at h
    rcases hsel : path.compiled.select json with err | sel
    · rw [hsel] at h; exact absurd h (by simp)
    · rw [hsel] at h
      match sel with
      | [] =>
        have hco : contribution json (field, path) = none := by
          simp [contribution, hsel]
        simp only at h
        have := ih q num qr n h
        rw [List.filterMap_cons, hco]
        exact this
      | [v] =>
        simp only at h
        rcases hc : path.type.convert v path with er | t
        · rw [hc] at h; exact absurd h (by simp)
        · rw [hc] at h
          have hco : contribution json (field, path) = some (field, t) := by
            simp [contribution, hsel, hc]
          have := ih (f q field t) (num + 1) qr n h
          rw [List.filterMap_cons, hco]
          refine ⟨this.1, ?_⟩
          rw [this.2]
          simp
          omega
      | a :: b :: r =>
        simp only at h
        exact absurd h (by simp)

/-- The record build succeeds exactly when every mapping of the set is
individually acceptable; success never depends on the record shell, the
counter or the accumulator function. -/
lemma aq_isOk (json : Value) (f : WriteQuery → String → InfluxType → WriteQuery)
    (l : List (String × Path)) :
    ∀ (q : WriteQuery) (num : Nat),
      (add_to_query_from q num l json f).toOption.isSome = l.all (entry_okB json) := by
  induction l with
  | nil => intro q num; rfl
  | cons e rest ih =>
    obtain ⟨field, path⟩ := e
    intro q num
    rw [List.all_cons]
    have hok : entry_okB json (field, path) =
        (match path.compiled.select json with
          | .error _ => false
          | .ok [] => true
          | .ok [v] => ((field, path).2.type.convert v (field, path).2).toOption.isSome
          | .ok _ => false) := rfl
    simp only [add_to_query_from]
    rcases hsel : path.compiled.select json with err | sel
    · rw [hok, hsel]; rfl
    · rw [hok, hsel]
      match sel with
      | [] =>
        simp only
        rw [ih q num]
        simp
      | [v] =>
        simp only
        rcases hc : path.type.convert v path with er | t
        · simp [hc, Except.toOption]
        · show (add_to_query_from (f q field t) (num + 1) rest json f).toOption.isSome = _
          rw [ih (f q field t) (num + 1)]
          simp [hc, Except.toOption]
      | a :: b :: r =>
        simp [Except.toOption]

/-- A zero-match mapping entry can be dropped from anywhere in the set
without changing the record build at all. -/
lemma aq_skip (json : Value) (f : WriteQuery → String → InfluxType → WriteQuery)
    (field : String) (path : Path) (hsel : path.compiled.select json = .ok [])
    (l1 : List (String × Path)) :
    ∀ (l2 : List (String × Path)) (q : WriteQuery) (num : Nat),
      add_to_query_from q num (l1 ++ (field, path) :: l2) json f
        = add_to_query_from q num (l1 ++ l2) json f := by
  induction l1 with
  | nil =>
    intro l2 q num
    simp only [List.nil_append]
    conv_lhs => rw [add_to_query_from]
    rw [hsel]
  | cons e rest ih =>
    intro l2 q num
    obtain ⟨f0, p0⟩ := e
    simp only [List.cons_append]
    conv_lhs => rw [add_to_query_from]
    conv_rhs => rw [add_to_query_from]
    rcases hs : p0.compiled.select json with err | sel
    · rfl
    · match sel with
      | [] => exact ih l2 q num
      | [v] =>
        show (match p0.type.convert v p0 with
              | .error e => Except.error e
              | .ok t => add_to_query_from (f q f0 t) (num + 1) (rest ++ (field, path) :: l2) json f)
            = (match p0.type.convert v p0 with
              | .error e => Except.error e
              | .ok t => add_to_query_from (f q f0 t) (num + 1) (rest ++ l2) json f)
        rcases hc : p0.type.convert v p0 with er | t
        · rfl
        · exact ih l2 (f q f0 t) (num + 1)
      | a :: b :: r => rfl

/-- One unacceptable mapping entry anywhere in the set makes the whole
record build fail. -/
lemma aq_error_of_mem (json : Value) (f : WriteQuery → String → InfluxType → WriteQuery)
    (l : List (String × Path)) (e0 : String × Path) (hmem : e0 ∈ l)
    (hbad : entry_okB json e0 = false) (q : WriteQuery) (num : Nat) :
    ∃ err, add_to_query_from q num l json f = .error err := by
  have hall : l.all (entry_okB json) = false := by
    rcases h : l.all (entry_okB json)
    · rfl
    · rw [List.all_eq_true] at h
      have := h e0 hmem
      rw [hbad] at this
      cases this
  have hok := aq_isOk json f l q num
  rw [hall] at hok
  rcases hr : add_to_query_from q num l json f with err | r
  · exact ⟨err, rfl⟩
  · rw [hr] at hok
    simp [Except.toOption] at hok

/-- `List.all` is invariant under permutation. -/
lemma perm_all {α : Type} {l1 l2 : List α} (h : l1.Perm l2) (p : α → Bool) :
    l1.all p = l2.all p := by
  rw [Bool.eq_iff_iff]
  simp only [List.all_eq_true]
  exact ⟨fun h1 x hx => h1 x (h.mem_iff.mpr hx), fun h1 x hx => h1 x (h.mem_iff.mp hx)⟩

/-- Folding `add_field` over a contribution list appends it to the
record's field list and leaves everything else unchanged. -/
lemma foldl_add_field (c : List (String × InfluxType)) :
    ∀ q : WriteQuery,
      (c.foldl (fun acc kt => acc.add_field kt.1 kt.2) q).fields = q.fields ++ c
      ∧ (c.foldl (fun acc kt => acc.add_field kt.1 kt.2) q).tags = q.tags
      ∧ (c.foldl (fun acc kt => acc.add_field kt.1 kt.2) q).timestamp = q.timestamp
      ∧ (c.foldl (fun acc kt => acc.add_field kt.1 kt.2) q).measurement = q.measurement := by
  induction c with
  | nil => intro q; simp
  | cons kt rest ih =>
    intro q
    rw [List.foldl_cons]
    obtain ⟨h1, h2, h3, h4⟩ := ih (q.add_field kt.1 kt.2)
    refine ⟨?_, ?_, ?_, ?_⟩
    · rw [h1]
      show (q.fields ++ [(kt.1, kt.2)]) ++ rest = q.fields ++ kt :: rest
      simp
    · rw [h2]; rfl
    · rw [h3]; rfl
    · rw [h4]; rfl

/-- Folding `add_tag` over a contribution list appends it to the
record's tag list and leaves everything else unchanged. -/
lemma foldl_add_tag (c : List (String × InfluxType)) :
    ∀ q : WriteQuery,
      (c.foldl (fun acc kt => acc.add_tag kt.1 kt.2) q).tags = q.tags ++ c
      ∧ (c.foldl (fun acc kt => acc.add_tag kt.1 kt.2) q).fields = q.fields
      ∧ (c.foldl (fun acc kt => acc.add_tag kt.1 kt.2) q).timestamp = q.timestamp
      ∧ (c.foldl (fun acc kt => acc.add_tag kt.1 kt.2) q).measurement = q.measurement := by
  induction c with
  | nil => intro q; simp
  | cons kt rest ih =>
    intro q
    rw [List.foldl_cons]
    obtain ⟨h1, h2, h3, h4⟩ := ih (q.add_tag kt.1 kt.2)
    refine ⟨?_, ?_, ?_, ?_⟩
    · rw [h1]
      show (q.tags ++ [(kt.1, kt.2)]) ++ rest = q.tags ++ kt :: rest
      simp
    · rw [h2]; rfl
    · rw [h3]; rfl
    · rw [h4]; rfl

/-- Every entry of an insert-result is an old entry or the inserted
pair. -/
lemma mapInsert_mem (k : String) (v : Path) :
    ∀ (m : List (String × Path)) (e : String × Path),
      e ∈ mapInsert m k v → e ∈ m ∨ e = (k, v) := by
  intro m
  induction m with
  | nil =>
    intro e he
    simp only [mapInsert, List.mem_singleton] at he
    right; exact he
  | cons kv0 rest ih =>
    intro e he
    obtain ⟨k0, v0⟩ := kv0
    simp only [mapInsert] at he
    by_cases hk : k0 = k
    · rw [if_pos hk] at he
      rcases List.mem_cons.mp he with h | h
      · right; exact h
      · left; exact List.mem_cons_of_mem _ h
    · rw [if_neg hk] at he
      rcases List.mem_cons.mp he with h | h
      · left; rw [h]; exact List.mem_cons_self _ _
      · rcases ih e h with h1 | h1
        · left; exact List.mem_cons_of_mem _ h1
        · right; exact h1

/-- The keys after an insert: unchanged when the key was present, else
the key is appended. -/
lemma mapInsert_keys (k : String) (v : Path) :
    ∀ m : List (String × Path),
      (mapInsert m k v).map Prod.fst =
        if k ∈ m.map Prod.fst then m.map Prod.fst else m.map Prod.fst ++ [k] := by
  intro m
  induction m with
  | nil => simp [mapInsert]
  | cons kv0 rest ih =>
    obtain ⟨k0, v0⟩ := kv0
    simp only [mapInsert]
    by_cases hk : k0 = k
    · rw [if_pos hk]
      simp [hk]
    · rw [if_neg hk]
      simp only [List.map_cons]
      rw [ih]
      by_cases hmem : k ∈ rest.map Prod.fst
      · rw [if_pos hmem, if_pos (by simp [hmem])]
      · have hnotin : ¬ k ∈ k0 :: rest.map Prod.fst := by
          simp only [List.mem_cons]
          rintro (h | h)
          · exact hk h.symm
          · exact hmem h
        rw [if_neg hmem, if_neg hnotin]
        simp

/-- Inserting preserves distinctness of keys. -/
lemma mapInsert_nodup (k : String) (v : Path) (m : List (String × Path))
    (h : (m.map Prod.fst).Nodup) : ((mapInsert m k v).map Prod.fst).Nodup := by
  rw [mapInsert_keys]
  by_cases hmem : k ∈ m.map Prod.fst
  · rw [if_pos hmem]; exact h
  · rw [if_neg hmem]
    simp [List.nodup_append, h, hmem]

/-- Invariant of the `init` loop: every produced mapping is either an
accumulator entry or was built from an environment binding of the
matching prefix, lower-cased; tag mappings built by the loop always have
type `None`; key distinctness is preserved. -/
lemma init_go_spec (compile : String → Except String Compiled)
    (env_all : List (String × String)) :
    ∀ (rest : List (String × String)) (fields0 tags0 F T : List (String × Path)),
      init_go compile env_all rest fields0 tags0 = .ok (F, T) →
      (∀ e : String × Path, e ∈ T → e ∈ tags0 ∨
        (e.2.type = ExpectedType.None ∧ ∃ key value suffix, (key, value) ∈ rest ∧
          strip_pre "TAG_" key = some suffix ∧ e.1 = toLowerStr suffix ∧ e.2.path = value))
      ∧ (∀ e : String × Path, e ∈ F → e ∈ fields0 ∨
          ∃ key value suffix, (key, value) ∈ rest ∧
            strip_pre "FIELD_" key = some suffix ∧ e.1 = toLowerStr suffix ∧ e.2.path = value)
      ∧ ((fields0.map Prod.fst).Nodup → (F.map Prod.fst).Nodup)
      ∧ ((tags0.map Prod.fst).Nodup → (T.map Prod.fst).Nodup) := by
  intro rest
  induction rest with
  | nil =>
    intro fields0 tags0 F T h
    simp only [init_go, Except.ok.injEq, Prod.mk.injEq] at h
    obtain ⟨hF, hT⟩ := h
    subst hF; subst hT
    exact ⟨fun e he => Or.inl he, fun e he => Or.inl he, id, id⟩
  | cons kv more ih =>
    intro fields0 tags0 F T h
    obtain ⟨key, value⟩ := kv
    simp only [init_go] at h
    rcases hf : strip_pre "FIELD_" key with _ | field
    · simp only [hf] at h
      rcases ht : strip_pre "TAG_" key with _ | tag
      · simp only [ht] at h
        obtain ⟨hT', hF', hnF, hnT⟩ := ih fields0 tags0 F T h
        refine ⟨?_, ?_, hnF, hnT⟩
        · intro e he
          rcases hT' e he with h1 | ⟨h1, k1, v1, s1, hm, hs, he1, he2⟩
          · exact Or.inl h1
          · exact Or.inr ⟨h1, k1, v1, s1, List.mem_cons_of_mem _ hm, hs, he1, he2⟩
        · intro e he
          rcases hF' e he with h1 | ⟨k1, v1, s1, hm, hs, he1, he2⟩
          · exact Or.inl h1
          · exact Or.inr ⟨k1, v1, s1, List.mem_cons_of_mem _ hm, hs, he1, he2⟩
      · simp only [ht] at h
        rcases hc : compile value with err | compiled
        · simp only [hc] at h; exact absurd h (by simp)
        · simp only [hc] at h
          obtain ⟨hT', hF', hnF, hnT⟩ := ih fields0
            (mapInsert tags0 (toLowerStr tag)
              { path := value, compiled := compiled, type := ExpectedType.None }) F T h
          refine ⟨?_, ?_, hnF, fun hn => hnT (mapInsert_nodup _ _ _ hn)⟩
          · intro e he
            rcases hT' e he with h1 | ⟨h1, k1, v1, s1, hm, hs, he1, he2⟩
            · rcases mapInsert_mem _ _ tags0 e h1 with h2 | h2
              · exact Or.inl h2
              · refine Or.inr ⟨?_, key, value, tag, List.mem_cons_self _ _, ht, ?_, ?_⟩ <;>
                  rw [h2]
            · exact Or.inr ⟨h1, k1, v1, s1, List.mem_cons_of_mem _ hm, hs, he1, he2⟩
          · intro e he
            rcases hF' e he with h1 | ⟨k1, v1, s1, hm, hs, he1, he2⟩
            · exact Or.inl h1
            · exact Or.inr ⟨k1, v1, s1, List.mem_cons_of_mem _ hm, hs, he1, he2⟩
    · simp only [hf] at h
      rcases hc : compile value with err | compiled
      · simp only [hc] at h; exact absurd h (by simp)
      · simp only [hc] at h
        rcases hv : ExpectedType.of_var (env_var env_all ("TYPE_FIELD_" ++ field)) with err | ty
        · simp only [hv] at h; exact absurd h (by simp)
        · simp only [hv] at h
          obtain ⟨hT', hF', hnF, hnT⟩ := ih
            (mapInsert fields0 (toLowerStr field)
              { path := value, compiled := compiled, type := ty }) tags0 F T h
          refine ⟨?_, ?_, fun hn => hnF (mapInsert_nodup _ _ _ hn), hnT⟩
          · intro e he
            rcases hT' e he with h1 | ⟨h1, k1, v1, s1, hm, hs, he1, he2⟩
            · exact Or.inl h1
            · exact Or.inr ⟨h1, k1, v1, s1, List.mem_cons_of_mem _ hm, hs, he1, he2⟩
          · intro e he
            rcases hF' e he with h1 | ⟨k1, v1, s1, hm, hs, he1, he2⟩
            · rcases mapInsert_mem _ _ fields0 e h1 with h2 | h2
              · exact Or.inl h2
              · refine Or.inr ⟨key, value, field, List.mem_cons_self _ _, hf, ?_, ?_⟩ <;>
                  rw [h2]
            · exact Or.inr ⟨k1, v1, s1, List.mem_cons_of_mem _ hm, hs, he1, he2⟩

/-! ## Claims -/

/-- C2: for every mapping evaluated against a JSON document, zero path
matches contribute nothing to the record and raise no error; exactly one
match proceeds to type coercion; two or more matches make the whole
record-building operation fail with `SelectorError` whose message states
the match count, and no partial record is returned. -/
theorem claim_C2 (q : WriteQuery) (json : Value)
    (f : WriteQuery → String → InfluxType → WriteQuery) (field : String) (path : Path) :
    (path.compiled.select json = .ok [] →
      ∀ l1 l2 : List (String × Path),
        add_to_query q (l1 ++ (field, path) :: l2) json f = add_to_query q (l1 ++ l2) json f)
    ∧ (∀ v, path.compiled.select json = .ok [v] →
        add_to_query q [(field, path)] json f =
          match path.type.convert v path with
          | .ok t => .ok (f q field t, 1)
          | .error e => .error e)
    ∧ (∀ sel, path.compiled.select json = .ok sel → 2 ≤ sel.length →
        (add_to_query q [(field, path)] json f =
          .error (.SelectorError ("Selector found more than one value: " ++ toString sel.length)))
        ∧ ∀ l1 l2 : List (String × Path), ∃ e,
            add_to_query q (l1 ++ (field, path) :: l2) json f = .error e) := by
  refine ⟨?_, ?_, ?_⟩
  · intro hsel l1 l2
    exact aq_skip json f field path hsel l1 l2 q 0
  · intro v hsel
    simp only [add_to_query, add_to_query_from, hsel]
    rcases hc : path.type.convert v path with er | t <;> simp only [hc]
  · intro sel hsel hlen
    rcases sel with _ | ⟨a, _ | ⟨b, r⟩⟩
    · simp at hlen
    · simp at hlen
    · have hbad : entry_okB json (field, path) = false := by
        simp [entry_okB, hsel]
      constructor
      · simp only [add_to_query, add_to_query_from, hsel]
      · intro l1 l2
        exact aq_error_of_mem json f (l1 ++ (field, path) :: l2) (field, path)
          (by simp) hbad q 0

/-- Witness for C2 at a concrete two-match selector. -/
theorem claim_C2_witness :
    add_to_query (into_query 0 "t")
      [("f", { path := "$.x",
               compiled := ⟨fun _ => .ok [Value.null, Value.null]⟩,
               type := ExpectedType.None })] Value.null
      (fun query field value => query.add_field field value)
      = .error (.SelectorError ("Selector found more than one value: " ++
          toString ([Value.null, Value.null].length))) :=
  ((claim_C2 (into_query 0 "t") Value.null
      (fun query field value => query.add_field field value) "f"
      { path := "$.x",
        compiled := ⟨fun _ => .ok [Value.null, Value.null]⟩,
        type := ExpectedType.None }).2.2
    [Value.null, Value.null] rfl (by simp)).1

/-- C3: under the inferred type (`expected_type = None`), a JSON string
coerces to `Text`, a JSON boolean to `Boolean`, a JSON number through
the fallback chain Float, then SignedInteger, then UnsignedInteger —
whose first step always applies, so the integral number 42 lands in
`Float` — and any other JSON shape (array, object, null) fails with a
`PayloadParseError` naming the offending path and value. -/
theorem claim_C3 (path : Path) :
    (∀ s, ExpectedType.None.convert (Value.str s) path = .ok (InfluxType.Text s))
    ∧ (∀ b, ExpectedType.None.convert (Value.bool b) path = .ok (InfluxType.Boolean b))
    ∧ (∀ n : JNumber, ∃ q : ℚ, n.as_f64 = some q ∧
        ExpectedType.None.convert (Value.number n) path = .ok (InfluxType.Float q))
    ∧ ExpectedType.None.convert (Value.number (JNumber.posInt 42)) path
        = .ok (InfluxType.Float 42)
    ∧ ExpectedType.None.convert Value.null path = .error (.PayloadParseError
        ("Invalid value type selected - path: " ++ path.path ++ ", value: " ++ Value.null.debug))
    ∧ (∀ xs, ExpectedType.None.convert (Value.array xs) path = .error (.PayloadParseError
        ("Invalid value type selected - path: " ++ path.path ++ ", value: "
          ++ (Value.array xs).debug)))
    ∧ (∀ kvs, ExpectedType.None.convert (Value.object kvs) path = .error (.PayloadParseError
        ("Invalid value type selected - path: " ++ path.path ++ ", value: "
          ++ (Value.object kvs).debug))) := by
  refine ⟨fun s => rfl, fun b => rfl, ?_, ?_, rfl, fun xs => rfl, fun kvs => rfl⟩
  · intro n
    rcases n with n | i | q
    · exact ⟨(n : ℚ), rfl, by simp [ExpectedType.convert, JNumber.as_f64, Option.orElse]⟩
    · exact ⟨(i : ℚ), rfl, by simp [ExpectedType.convert, JNumber.as_f64, Option.orElse]⟩
    · exact ⟨q, rfl, by simp [ExpectedType.convert, JNumber.as_f64, Option.orElse]⟩
  · simp [ExpectedType.convert, JNumber.as_f64, Option.orElse]

/-- C4: explicit type hints are strict — a value whose accessor for the
hinted representation yields nothing fails with `PayloadParseError`; in
particular any JSON string under `UnsignedInteger`, the number -3 under
`UnsignedInteger`, and a float under `SignedInteger` (no lossy
truncation) always fail. -/
theorem claim_C4 (path : Path) :
    (∀ v : Value, v.as_bool = none →
      ExpectedType.Boolean.convert v path = .error (.PayloadParseError ""))
    ∧ (∀ v : Value, v.as_str = none →
        ExpectedType.Text.convert v path = .error (.PayloadParseError ""))
    ∧ (∀ v : Value, v.as_u64 = none →
        ExpectedType.UnsignedInteger.convert v path = .error (.PayloadParseError ""))
    ∧ (∀ v : Value, v.as_i64 = none →
        ExpectedType.SignedInteger.convert v path = .error (.PayloadParseError ""))
    ∧ (∀ v : Value, v.as_f64 = none →
        ExpectedType.Float.convert v path = .error (.PayloadParseError ""))
    ∧ (∀ s, ExpectedType.UnsignedInteger.convert (Value.str s) path
        = .error (.PayloadParseError ""))
    ∧ ExpectedType.UnsignedInteger.convert (Value.number (JNumber.negInt (-3))) path
        = .error (.PayloadParseError "")
    ∧ (∀ q : ℚ, ExpectedType.SignedInteger.convert (Value.number (JNumber.float q)) path
        = .error (.PayloadParseError "")) := by
  refine ⟨?_, ?_, ?_, ?_, ?_, fun s => rfl, rfl, fun q => rfl⟩ <;>
    (intro v h; simp [ExpectedType.convert, ExpectedType.accept, h])

/-- Witness for C4 at concrete mismatched values. -/
theorem claim_C4_witness :
    ExpectedType.Boolean.convert (Value.str "no")
      { path := "$.b", compiled := ⟨fun _ => .ok []⟩, type := ExpectedType.Boolean }
      = .error (.PayloadParseError "")
    ∧ ExpectedType.UnsignedInteger.convert (Value.number (JNumber.negInt (-3)))
      { path := "$.b", compiled := ⟨fun _ => .ok []⟩, type := ExpectedType.UnsignedInteger }
      = .error (.PayloadParseError "") :=
  ⟨(claim_C4 { path := "$.b", compiled := ⟨fun _ => .ok []⟩, type := ExpectedType.Boolean }).1
      (Value.str "no") rfl,
   (claim_C4 { path := "$.b", compiled := ⟨fun _ => .ok []⟩, type := ExpectedType.UnsignedInteger
    }).2.2.2.2.2.2.1⟩

/-- C6: on success, the count returned by the record builder is exactly
the number of mappings in the set that matched exactly once and whose
match coerced successfully. -/
theorem claim_C6 (q : WriteQuery) (entries : List (String × Path)) (json : Value)
    (f : WriteQuery → String → InfluxType → WriteQuery) (qr : WriteQuery) (n : Nat)
    (h : add_to_query q entries json f = .ok (qr, n)) :
    n = entries.countP (contributes json) := by
  have hh := aq_ok_foldl json f entries q 0 qr n h
  rw [countP_contributes]
  simpa using hh.2

/-- Witness for C6: one contributing mapping and one zero-match mapping
give count 1. -/
theorem claim_C6_witness :
    ([("a", { path := "$.a", compiled := ⟨fun _ => .ok [Value.bool true]⟩,
              type := ExpectedType.None }),
      ("b", { path := "$.b", compiled := ⟨fun _ => .ok []⟩,
              type := ExpectedType.None })].countP (contributes Value.null)) = 1 :=
  (claim_C6 (into_query 0 "t")
      [("a", { path := "$.a", compiled := ⟨fun _ => .ok [Value.bool true]⟩,
               type := ExpectedType.None }),
       ("b", { path := "$.b", compiled := ⟨fun _ => .ok []⟩,
               type := ExpectedType.None })] Value.null
      (fun query field value => query.add_field field value)
      ((into_query 0 "t").add_field "a" (InfluxType.Boolean true)) 1 rfl).symm

/-- C7: the record builder is deterministic and stateless across calls —
two runs over the same record shell, mapping set and document yield the
same result (the embedding is a pure function of its arguments, matching
the source, which keeps no state outside the call). -/
theorem claim_C7 (q : WriteQuery) (entries : List (String × Path)) (json : Value)
    (f : WriteQuery → String → InfluxType → WriteQuery)
    (r1 r2 : Except ServiceError (WriteQuery × Nat))
    (h1 : r1 = add_to_query q entries json f)
    (h2 : r2 = add_to_query q entries json f) : r1 = r2 :=
  h1.trans h2.symm

/-- Witness for C7: two concrete runs of the same build coincide. -/
theorem claim_C7_witness :
    (Except.ok ((into_query 0 "t").add_field "a" (InfluxType.Boolean true), 1) :
        Except ServiceError (WriteQuery × Nat))
      = .ok ((into_query 0 "t").add_field "a" (InfluxType.Boolean true), 1) :=
  claim_C7 (into_query 0 "t")
    [("a", { path := "$.a", compiled := ⟨fun _ => .ok [Value.bool true]⟩,
             type := ExpectedType.None })] Value.null
    (fun query field value => query.add_field field value) _ _ rfl rfl

/-- C10: an absent payload fails with `PayloadParseError` detail
"Unknown event payload"; a structured JSON payload is passed through; a
string or binary payload that does not parse as JSON fails with a
`PayloadParseError` carrying the parser's message; and at the top level
a missing payload is a request-fatal error, not a nothing-to-write
signal. -/
theorem claim_C10 (from_str : String → Except String Value)
    (from_slice : List Nat → Except String Value) :
    parse_payload from_str from_slice none = .error (.PayloadParseError "Unknown event payload")
    ∧ (∀ v, parse_payload from_str from_slice (some (Data.Json v)) = .ok v)
    ∧ (∀ s e, from_str s = .error e →
        parse_payload from_str from_slice (some (Data.Str s)) = .error (.PayloadParseError e))
    ∧ (∀ b e, from_slice b = .error e →
        parse_payload from_str from_slice (some (Data.Binary b)) = .error (.PayloadParseError e))
    ∧ (∀ (now : Int) (run_query : WriteQuery → Except String Unit)
          (processor : Processor) (event : Event), event.data = none →
        handle now run_query from_str from_slice processor event
          = .error (.PayloadParseError "Unknown event payload")) := by
  refine ⟨rfl, fun v => rfl, ?_, ?_, ?_⟩
  · intro s e h
    simp only [parse_payload, h]
  · intro b e h
    simp only [parse_payload, h]
  · intro now run_query processor event h
    simp only [handle, h, parse_payload]

/-- Witness for C10: a concrete unparsable string payload and a concrete
payload-less event. -/
theorem claim_C10_witness :
    parse_payload (fun _ => .error "bad json") (fun _ => .error "bad bytes")
      (some (Data.Str "not json")) = .error (.PayloadParseError "bad json")
    ∧ handle 7 (fun _ => .ok ()) (fun _ => .error "bad json") (fun _ => .error "bad bytes")
        { table := "t", fields := [], tags := [] }
        { data := none, time := none, json := Value.null }
      = .error (.PayloadParseError "Unknown event payload") :=
  ⟨(claim_C10 (fun _ => .error "bad json") (fun _ => .error "bad bytes")).2.2.1
      "not json" "bad json" rfl,
   (claim_C10 (fun _ => .error "bad json") (fun _ => .error "bad bytes")).2.2.2.2
      7 (fun _ => .ok ()) { table := "t", fields := [], tags := [] }
      { data := none, time := none, json := Value.null } rfl⟩

/-- C5: type-hint resolution is case-insensitive; the recognized
keywords map to their hints, the empty string and "none" map to `None`,
any other string fails with the "Unknown type" startup error, and an
entirely absent hint entry resolves to `None`. -/
theorem claim_C5 :
    (∀ s t : String, toLowerStr s = toLowerStr t →
      (ExpectedType.try_from s).toOption = (ExpectedType.try_from t).toOption)
    ∧ ExpectedType.try_from "bool" = .ok ExpectedType.Boolean
    ∧ ExpectedType.try_from "boolean" = .ok ExpectedType.Boolean
    ∧ ExpectedType.try_from "float" = .ok ExpectedType.Float
    ∧ ExpectedType.try_from "number" = .ok ExpectedType.Float
    ∧ ExpectedType.try_from "int" = .ok ExpectedType.SignedInteger
    ∧ ExpectedType.try_from "integer" = .ok ExpectedType.SignedInteger
    ∧ ExpectedType.try_from "uint" = .ok ExpectedType.UnsignedInteger
    ∧ ExpectedType.try_from "unsigned" = .ok ExpectedType.UnsignedInteger
    ∧ ExpectedType.try_from "string" = .ok ExpectedType.Text
    ∧ ExpectedType.try_from "text" = .ok ExpectedType.Text
    ∧ ExpectedType.try_from "" = .ok ExpectedType.None
    ∧ ExpectedType.try_from "none" = .ok ExpectedType.None
    ∧ (∀ s : String, toLowerStr s ∉
        (["bool", "boolean", "float", "number", "int", "integer", "uint", "unsigned",
          "string", "text", "", "none"] : List String) →
        ExpectedType.try_from s = .error ("Unknown type: " ++ s))
    ∧ ExpectedType.of_var none = .ok ExpectedType.None
    ∧ (∀ s, ExpectedType.of_var (some s) = ExpectedType.try_from s) := by
  refine ⟨?_, rfl, rfl, rfl, rfl, rfl, rfl, rfl, rfl, rfl, rfl, rfl, rfl, ?_, rfl,
    fun s => rfl⟩
  · intro s t h
    unfold ExpectedType.try_from
    rw [h]
    split <;> rfl
  · intro s hmem
    unfold ExpectedType.try_from
    split <;> simp_all

/-- Witness for C5: case-insensitivity at "BOOL" versus "bool", and the
unknown keyword "widget". -/
theorem claim_C5_witness :
    toLowerStr "BOOL" = toLowerStr "bool"
    ∧ (ExpectedType.try_from "BOOL").toOption = (ExpectedType.try_from "bool").toOption
    ∧ toLowerStr "widget" ∉
        (["bool", "boolean", "float", "number", "int", "integer", "uint", "unsigned",
          "string", "text", "", "none"] : List String)
    ∧ ExpectedType.try_from "widget" = .error ("Unknown type: " ++ "widget") :=
  ⟨by decide, claim_C5.1 "BOOL" "bool" (by decide), by decide,
   claim_C5.2.2.2.2.2.2.2.2.2.2.2.2.2.1 "widget" (by decide)⟩

/-- C8: the record build is invariant under the iteration order of the
mapping set — for permuted sets, success coincides, and on success the
contributed field list (respectively tag list) of the record agrees as a
multiset (hence as a name-to-value map, the keys being distinct), the
untouched components agree exactly, and the counts agree. -/
theorem claim_C8 (q : WriteQuery) (json : Value) (l1 l2 : List (String × Path))
    (hperm : l1.Perm l2) :
    ((add_to_query q l1 json (fun query field value => query.add_field field value)).toOption.isSome
      = (add_to_query q l2 json
          (fun query field value => query.add_field field value)).toOption.isSome)
    ∧ (∀ q1 n1 q2 n2,
        add_to_query q l1 json (fun query field value => query.add_field field value)
          = .ok (q1, n1) →
        add_to_query q l2 json (fun query field value => query.add_field field value)
          = .ok (q2, n2) →
        q1.fields.Perm q2.fields ∧ q1.tags = q2.tags ∧ q1.timestamp = q2.timestamp
          ∧ q1.measurement = q2.measurement ∧ n1 = n2)
    ∧ ((add_to_query q l1 json
          (fun query field value => query.add_tag field value)).toOption.isSome
      = (add_to_query q l2 json
          (fun query field value => query.add_tag field value)).toOption.isSome)
    ∧ (∀ q1 n1 q2 n2,
        add_to_query q l1 json (fun query field value => query.add_tag field value)
          = .ok (q1, n1) →
        add_to_query q l2 json (fun query field value => query.add_tag field value)
          = .ok (q2, n2) →
        q1.tags.Perm q2.tags ∧ q1.fields = q2.fields ∧ q1.timestamp = q2.timestamp
          ∧ q1.measurement = q2.measurement ∧ n1 = n2) := by
  have hcperm := hperm.filterMap (contribution json)
  refine ⟨?_, ?_, ?_, ?_⟩
  · rw [add_to_query, add_to_query, aq_isOk, aq_isOk, perm_all hperm]
  · intro q1 n1 q2 n2 h1 h2
    obtain ⟨hq1, hn1⟩ := aq_ok_foldl json _ l1 q 0 q1 n1 h1
    obtain ⟨hq2, hn2⟩ := aq_ok_foldl json _ l2 q 0 q2 n2 h2
    subst hq1; subst hq2
    obtain ⟨f1, t1, ts1, m1⟩ := foldl_add_field (l1.filterMap (contribution json)) q
    obtain ⟨f2, t2, ts2, m2⟩ := foldl_add_field (l2.filterMap (contribution json)) q
    refine ⟨?_, ?_, ?_, ?_, ?_⟩
    · rw [f1, f2]
      exact List.Perm.append_left q.fields hcperm
    · rw [t1, t2]
    · rw [ts1, ts2]
    · rw [m1, m2]
    · rw [hn1, hn2, hcperm.length_eq]
  · rw [add_to_query, add_to_query, aq_isOk, aq_isOk, perm_all hperm]
  · intro q1 n1 q2 n2 h1 h2
    obtain ⟨hq1, hn1⟩ := aq_ok_foldl json _ l1 q 0 q1 n1 h1
    obtain ⟨hq2, hn2⟩ := aq_ok_foldl json _ l2 q 0 q2 n2 h2
    subst hq1; subst hq2
    obtain ⟨f1, t1, ts1, m1⟩ := foldl_add_tag (l1.filterMap (contribution json)) q
    obtain ⟨f2, t2, ts2, m2⟩ := foldl_add_tag (l2.filterMap (contribution json)) q
    refine ⟨?_, ?_, ?_, ?_, ?_⟩
    · rw [f1, f2]
      exact List.Perm.append_left q.tags hcperm
    · rw [t1, t2]
    · rw [ts1, ts2]
    · rw [m1, m2]
    · rw [hn1, hn2, hcperm.length_eq]

/-- Witness for C8 at a concrete two-element mapping set and its
swap. -/
theorem claim_C8_witness :
    (add_to_query (into_query 0 "t")
      [("a", { path := "$.a", compiled := ⟨fun _ => .ok [Value.bool true]⟩,
               type := ExpectedType.None }),
       ("b", { path := "$.b", compiled := ⟨fun _ => .ok []⟩, type := ExpectedType.None })]
      Value.null (fun query field value => query.add_field field value)).toOption.isSome
    = (add_to_query (into_query 0 "t")
      [("b", { path := "$.b", compiled := ⟨fun _ => .ok []⟩, type := ExpectedType.None }),
       ("a", { path := "$.a", compiled := ⟨fun _ => .ok [Value.bool true]⟩,
               type := ExpectedType.None })]
      Value.null (fun query field value => query.add_field field value)).toOption.isSome :=
  (claim_C8 (into_query 0 "t") Value.null
    [("a", { path := "$.a", compiled := ⟨fun _ => .ok [Value.bool true]⟩,
             type := ExpectedType.None }),
     ("b", { path := "$.b", compiled := ⟨fun _ => .ok []⟩, type := ExpectedType.None })]
    [("b", { path := "$.b", compiled := ⟨fun _ => .ok []⟩, type := ExpectedType.None }),
     ("a", { path := "$.a", compiled := ⟨fun _ => .ok [Value.bool true]⟩,
             type := ExpectedType.None })]
    (List.Perm.swap
      (("b", { path := "$.b", compiled := ⟨fun _ => .ok []⟩,
               type := ExpectedType.None }) : String × Path)
      (("a", { path := "$.a", compiled := ⟨fun _ => .ok [Value.bool true]⟩,
               type := ExpectedType.None }) : String × Path)
      [])).1

/-- C9: every tag mapping produced by initialization has expected type
`None` regardless of any companion hint entry; every tag (respectively
field) destination name is the lower-cased suffix of an environment key
after its `TAG_` (respectively `FIELD_`) prefix, carrying that key's
value as its path text; and both mapping sets have internally unique
destination names (case-insensitive duplicates having silently
overwritten earlier entries). -/
theorem claim_C9 (compile : String → Except String Compiled) (env : List (String × String))
    (F T : List (String × Path)) (h : init_paths compile env = .ok (F, T)) :
    (∀ e : String × Path, e ∈ T → e.2.type = ExpectedType.None)
    ∧ (∀ e : String × Path, e ∈ T → ∃ key value suffix, (key, value) ∈ env ∧
        strip_pre "TAG_" key = some suffix ∧ e.1 = toLowerStr suffix ∧ e.2.path = value)
    ∧ (∀ e : String × Path, e ∈ F → ∃ key value suffix, (key, value) ∈ env ∧
        strip_pre "FIELD_" key = some suffix ∧ e.1 = toLowerStr suffix ∧ e.2.path = value)
    ∧ (F.map Prod.fst).Nodup ∧ (T.map Prod.fst).Nodup := by
  obtain ⟨hT, hF, hnF, hnT⟩ := init_go_spec compile env env [] [] F T h
  refine ⟨?_, ?_, ?_, hnF (by simp), hnT (by simp)⟩
  · intro e he
    rcases hT e he with h1 | ⟨h1, _⟩
    · simp at h1
    · exact h1
  · intro e he
    rcases hT e he with h1 | ⟨_, h2⟩
    · simp at h1
    · exact h2
  · intro e he
    rcases hF e he with h1 | h2
    · simp at h1
    · exact h2

/-- Witness for C9: a concrete environment with two case-insensitively
duplicate tag keys (the later one overwrites) and a field with a `uint`
hint. -/
theorem claim_C9_witness :
    init_paths (fun _ => .ok ⟨fun _ => .ok []⟩)
      [("TAG_Foo", "$.a"), ("TAG_FOO", "$.b"), ("FIELD_X", "$.c"), ("TYPE_FIELD_X", "uint")]
      = .ok ([("x", { path := "$.c", compiled := ⟨fun _ => .ok []⟩,
                      type := ExpectedType.UnsignedInteger })],
             [("foo", { path := "$.b", compiled := ⟨fun _ => .ok []⟩,
                        type := ExpectedType.None })])
    ∧ ((∀ e : String × Path,
          e ∈ [("foo", { path := "$.b", compiled := ⟨fun _ => .ok []⟩,
                         type := ExpectedType.None })] → e.2.type = ExpectedType.None)
        ∧ (∀ e : String × Path,
            e ∈ [("foo", { path := "$.b", compiled := ⟨fun _ => .ok []⟩,
                           type := ExpectedType.None })] →
            ∃ key value suffix,
              (key, value) ∈ [("TAG_Foo", "$.a"), ("TAG_FOO", "$.b"), ("FIELD_X", "$.c"),
                ("TYPE_FIELD_X", "uint")] ∧
              strip_pre "TAG_" key = some suffix ∧ e.1 = toLowerStr suffix ∧ e.2.path = value)
        ∧ (∀ e : String × Path,
            e ∈ [("x", { path := "$.c", compiled := ⟨fun _ => .ok []⟩,
                         type := ExpectedType.UnsignedInteger })] →
            ∃ key value suffix,
              (key, value) ∈ [("TAG_Foo", "$.a"), ("TAG_FOO", "$.b"), ("FIELD_X", "$.c"),
                ("TYPE_FIELD_X", "uint")] ∧
              strip_pre "FIELD_" key = some suffix ∧ e.1 = toLowerStr suffix ∧ e.2.path = value)
        ∧ ((([("x", { path := "$.c", compiled := ⟨fun _ => .ok []⟩,
                      type := ExpectedType.UnsignedInteger })] :
              List (String × Path)).map Prod.fst).Nodup)
        ∧ ((([("foo", { path := "$.b", compiled := ⟨fun _ => .ok []⟩,
                        type := ExpectedType.None })] :
              List (String × Path)).map Prod.fst).Nodup)) :=
  ⟨rfl,
   claim_C9 (fun _ => .ok ⟨fun _ => .ok []⟩)
     [("TAG_Foo", "$.a"), ("TAG_FOO", "$.b"), ("FIELD_X", "$.c"), ("TYPE_FIELD_X", "uint")]
     [("x", { path := "$.c", compiled := ⟨fun _ => .ok []⟩,
              type := ExpectedType.UnsignedInteger })]
     [("foo", { path := "$.b", compiled := ⟨fun _ => .ok []⟩, type := ExpectedType.None })]
     rfl⟩

/-- C1 counterexample: an event whose payload matches zero field
mappings but whose (failing) tag mapping IS evaluated against the
event-envelope JSON — the handler surfaces the tag selector's error
instead of signalling "nothing to write", refuting both halves of the
claim at this input. -/
theorem claim_C1_counterexample :
    handle 0 (fun _ => .ok ()) (fun _ => .error "unused") (fun _ => .error "unused")
      { table := "t",
        fields := [("f", { path := "$.x", compiled := ⟨fun _ => .ok []⟩,
                           type := ExpectedType.None })],
        tags := [("g", { path := "$.y", compiled := ⟨fun _ => .error "boom"⟩,
                         type := ExpectedType.None })] }
      { data := some (Data.Json Value.null), time := some 0, json := Value.null }
      = .error (.SelectorError "boom")
    ∧ handle 0 (fun _ => .ok ()) (fun _ => .error "unused") (fun _ => .error "unused")
      { table := "t",
        fields := [("f", { path := "$.x", compiled := ⟨fun _ => .ok []⟩,
                           type := ExpectedType.None })],
        tags := [("g", { path := "$.y", compiled := ⟨fun _ => .error "boom"⟩,
                         type := ExpectedType.None })] }
      { data := some (Data.Json Value.null), time := some 0, json := Value.null }
      ≠ .ok HandleOutcome.NoContent := by
  refine ⟨rfl, ?_⟩
  intro h
  exact Except.noConfusion h

/-- C1 as amended: when the payload parses and matches zero field
mappings, the handler answers "nothing to write" provided tag
accumulation over the event-envelope JSON succeeds; tag mappings are
evaluated before the field-count check, not skipped. -/
theorem claim_C1_amended (now : Int) (run_query : WriteQuery → Except String Unit)
    (from_str : String → Except String Value) (from_slice : List Nat → Except String Value)
    (processor : Processor) (event : Event) (json : Value) (q1 q2 : WriteQuery) (m : Nat)
    (hp : parse_payload from_str from_slice event.data = .ok json)
    (hv : add_values (into_query (event.time.getD now) processor.table) processor json
      = .ok (q1, 0))
    (ht : add_tags q1 processor event.json = .ok (q2, m)) :
    handle now run_query from_str from_slice processor event = .ok HandleOutcome.NoContent := by
  simp only [handle, hp, hv, ht]
  simp

/-- Witness for the amended C1: zero field matches with a succeeding tag
evaluation yield No Content. -/
theorem claim_C1_witness :
    handle 0 (fun _ => .ok ()) (fun _ => .error "unused") (fun _ => .error "unused")
      { table := "t",
        fields := [("f", { path := "$.x", compiled := ⟨fun _ => .ok []⟩,
                           type := ExpectedType.None })],
        tags := [("g", { path := "$.y", compiled := ⟨fun _ => .ok []⟩,
                         type := ExpectedType.None })] }
      { data := some (Data.Json Value.null), time := some 0, json := Value.null }
      = .ok HandleOutcome.NoContent :=
  claim_C1_amended 0 (fun _ => .ok ()) (fun _ => .error "unused") (fun _ => .error "unused")
    { table := "t",
      fields := [("f", { path := "$.x", compiled := ⟨fun _ => .ok []⟩,
                         type := ExpectedType.None })],
      tags := [("g", { path := "$.y", compiled := ⟨fun _ => .ok []⟩,
                       type := ExpectedType.None })] }
    { data := some (Data.Json Value.null), time := some 0, json := Value.null }
    Value.null (into_query 0 "t") (into_query 0 "t") 0 rfl rfl rfl

end DrogueInflux
